import Mathlib

/-!
Shallow embedding of `src/app.py` — the Pretor Group "New Business Take-On"
Streamlit application — covering its three logic-bearing paths:

* template instantiation (`new_scheme_page`, src/app.py:264-383);
* progress reconciliation (the save path of `display_and_edit_progress`,
  src/app.py:435-511) together with the read-time join that feeds it
  (`progress_tracker_page`, src/app.py:385-424);
* report rendering (`generate_pdf_report` and `PDF.chapter_body`,
  src/app.py:90-192).

DataFrames are modelled as lists of (index label, row) pairs; absent cell
values (NULL / NaN / None) are modelled as `Option.none`; machine effects
(Supabase inserts/updates) are modelled as explicit payload lists and an
operation trace.
-/

/-- One row of the `master_checklist` table: a checklist template item with
its description, responsible-party category (`type` is "PMA" or "Pretor")
and scheme-type applicability (`scheme_type` is "BC" or "HOA"). -/
structure MasterChecklistItem where
  id : Nat
  item_description : String
  type : String
  scheme_type : String
  deriving DecidableEq, Repr

/-- The row payload that `new_scheme_page` (src/app.py:368-374) appends to
`progress_data` for the bulk insert into `progress_tracker`: only the scheme
binding, the template item id, and `is_complete = False` are stored.  The
template's category, description and scheme-type are NOT copied onto the
record. -/
structure NewProgressRow where
  scheme_id : Nat
  master_item_id : Nat
  is_complete : Bool
  deriving DecidableEq, Repr

/-- Selection of template items in `new_scheme_page` (src/app.py:365):
`items_to_copy = df_master_checklist[df_master_checklist['scheme_type'] == scheme_type_abbr]`. -/
def items_to_copy (catalog : List MasterChecklistItem) (scheme_type_abbr : String) :
    List MasterChecklistItem :=
  catalog.filter (fun t => t.scheme_type == scheme_type_abbr)

/-- The `progress_data` list built by the loop at src/app.py:368-374: one
`NewProgressRow` per matching template item, bound to the new scheme id,
starting incomplete. -/
def copy_checklists (new_scheme_id : Nat) (catalog : List MasterChecklistItem)
    (scheme_type_abbr : String) : List NewProgressRow :=
  (items_to_copy catalog scheme_type_abbr).map (fun row =>
    { scheme_id := new_scheme_id, master_item_id := row.id, is_complete := false })

/-- Remote store operations issued by the scheme-creation handler.  The
`delete_scheme` constructor is part of the store's vocabulary (it would be
the compensating rollback); the handler never issues it. -/
inductive StoreOp where
  | insert_scheme : StoreOp
  | insert_progress : List NewProgressRow → StoreOp
  | delete_scheme : Nat → StoreOp
  deriving DecidableEq, Repr

/-- Outcome of one submission of the "Create Scheme and Copy Checklists"
form: the store operations attempted in order, whether the scheme row ended
up persisted, which progress rows ended up persisted, and whether an error
was reported to the caller (`st.error`). -/
structure SubmitResult where
  trace : List StoreOp
  scheme_persisted : Bool
  progress_persisted : List NewProgressRow
  error_reported : Bool
  deriving DecidableEq, Repr

/-- Effect model of the submission handler of `new_scheme_page`
(src/app.py:321-383).  Inside a single `try` block the scheme row is
inserted first; on success the matching checklist items are selected and,
when any exist, bulk-inserted into `progress_tracker`; when none exist a
warning informs the caller and no batch insert is attempted.  Any exception
jumps to the `except` handler (src/app.py:382-383), which only reports the
failure — the handler contains no compensating delete of the already
persisted scheme row.  `scheme_ok` and `batch_ok` say whether the two remote
inserts succeed. -/
def new_scheme_submit (catalog : List MasterChecklistItem) (scheme_type_abbr : String)
    (new_scheme_id : Nat) (scheme_ok batch_ok : Bool) : SubmitResult :=
  if scheme_ok then
    let progress_data := copy_checklists new_scheme_id catalog scheme_type_abbr
    if progress_data.isEmpty then
      { trace := [StoreOp.insert_scheme], scheme_persisted := true,
        progress_persisted := [], error_reported := false }
    else if batch_ok then
      { trace := [StoreOp.insert_scheme, StoreOp.insert_progress progress_data],
        scheme_persisted := true, progress_persisted := progress_data,
        error_reported := false }
    else
      { trace := [StoreOp.insert_scheme, StoreOp.insert_progress progress_data],
        scheme_persisted := true, progress_persisted := [],
        error_reported := true }
  else
    { trace := [StoreOp.insert_scheme], scheme_persisted := false,
      progress_persisted := [], error_reported := true }

/-- A persisted `progress_tracker` row as stored in the database. -/
structure ProgressTrackerRow where
  id : Nat
  scheme_id : Nat
  master_item_id : Nat
  is_complete : Bool
  date_completed : Option String
  completed_by : Option String
  notes : Option String
  deriving DecidableEq, Repr

/-- One element of `data_for_df` in `progress_tracker_page`
(src/app.py:412-422): a progress row flattened together with the template
item attributes obtained from the embedded `master_checklist(*)` join. -/
structure FlatProgressRow where
  progress_id : Nat
  item_description : String
  scheme_type : String
  type : String
  is_complete : Bool
  date_completed : Option String
  completed_by : Option String
  notes : Option String
  deriving DecidableEq, Repr

/-- The read path of `progress_tracker_page` (src/app.py:404-422):
`select("*, master_checklist(*)")` embeds, for each progress row, the
catalog row whose `id` equals the record's `master_item_id`, resolved
against the CURRENT state of `master_checklist` at read time; the loop then
flattens it, taking `item_description`, `scheme_type` and `type` from the
joined catalog row. -/
def flatten_progress_row (catalog : List MasterChecklistItem) (p : ProgressTrackerRow) :
    Option FlatProgressRow :=
  (catalog.find? (fun m => m.id == p.master_item_id)).map (fun m =>
    { progress_id := p.id, item_description := m.item_description,
      scheme_type := m.scheme_type, type := m.type,
      is_complete := p.is_complete, date_completed := p.date_completed,
      completed_by := p.completed_by, notes := p.notes })

/-- The `update_payload` dictionary of src/app.py:497-502, carrying only the
four editable database columns. -/
structure UpdatePayload where
  is_complete : Bool
  date_completed : Option String
  completed_by : Option String
  notes : Option String
  deriving DecidableEq, Repr

/-- The partial update payload built at src/app.py:497-502 from an edited
grid row.  In the app, `Date` holds `datetime.date` values or `None` and
`Completed By` one of three non-empty labels or `None`, so a present value
is always truthy and `new_date if new_complete and new_date else None`
reduces to: keep the value when the completion flag is true, else `None`.
`notes` is passed through unconditionally. -/
def update_payload (e : FlatProgressRow) : UpdatePayload :=
  { is_complete := e.is_complete
    date_completed := if e.is_complete then e.date_completed else none
    completed_by := if e.is_complete then e.completed_by else none
    notes := e.notes }

/-- The save path of `display_and_edit_progress` (src/app.py:477-511) for
one grid.  `orig` is `df_display` (equivalently `df`: same rows, same
RangeIndex labels) and `edited` is the frame returned by `st.data_editor`,
both as (index label, row) lists.  `DataFrame.compare` raises
`ValueError("Can only compare identically-labeled DataFrame objects")`
unless the two frames carry the same index labels in the same order; it is
called with `keep_shape=True`, so its result keeps EVERY row — hence
`changes.empty` holds only for a rowless grid and the update loop runs over
the entire shared index.  For each label the loop reads `progress_id` from
the original frame and the proposed values from the edited frame at that
same label; the edited frame's own (hidden) `progress_id` column is never
read.  The labels are the unique RangeIndex `0..n-1`
(`reset_index(drop=True)` at src/app.py:429-430), so per-label lookup over
the equal label lists is exactly the zip below. -/
def reconcile (orig edited : List (Nat × FlatProgressRow)) :
    Except String (List (Nat × UpdatePayload)) :=
  if orig.map Prod.fst = edited.map Prod.fst then
    Except.ok ((orig.zip edited).map (fun p => (p.1.2.progress_id, update_payload p.2.2)))
  else
    Except.error "Can only compare identically-labeled DataFrame objects"

/-- Database effect of one issued update (src/app.py:505):
`update(update_payload).eq('id', progress_id)` overwrites the four editable
columns of every row whose `id` matches; all other columns are untouched. -/
def apply_update (r : FlatProgressRow) (u : Nat × UpdatePayload) : FlatProgressRow :=
  if r.progress_id == u.1 then
    { r with is_complete := u.2.is_complete, date_completed := u.2.date_completed,
             completed_by := u.2.completed_by, notes := u.2.notes }
  else r

/-- State of the grid after the issued updates have been applied in order. -/
def apply_result (orig : List (Nat × FlatProgressRow)) (updates : List (Nat × UpdatePayload)) :
    List (Nat × FlatProgressRow) :=
  orig.map (fun p => (p.1, updates.foldl apply_update p.2))

/-- ASCII sanitization at src/app.py:141:
`str(...).encode('ascii', errors='ignore').decode('ascii')` drops every
character outside the 7-bit ASCII range and keeps the rest unchanged. -/
def ascii_ignore (s : String) : String :=
  String.mk (s.toList.filter (fun c => c.toNat < 128))

/-- The four columns of the frame handed to `PDF.chapter_body` after its
defensive preparation (src/app.py:116-119): `item_description` coerced to a
string (`fillna('N/A')`), and `date_completed` / `completed_by` with absent
values replaced by the dash placeholder (`fillna('-')`). -/
structure PdfTableRow where
  item_description : String
  is_complete : Bool
  date_completed : String
  completed_by : String
  deriving DecidableEq, Repr

/-- The preparation block of `PDF.chapter_body` (src/app.py:116-119) applied
to one flattened progress row: descriptions from the join are non-null
strings (so `fillna('N/A')` leaves them unchanged), while absent
`date_completed` / `completed_by` become "-". -/
def prep_row (r : FlatProgressRow) : PdfTableRow :=
  { item_description := r.item_description, is_complete := r.is_complete,
    date_completed := r.date_completed.getD "-",
    completed_by := r.completed_by.getD "-" }

/-- Row selection of `generate_pdf_report` (src/app.py:169-182):
`pretor_data = progress_data[progress_data['type'] == 'Pretor']`; when the
filtered frame is non-empty it is handed to `chapter_body`, otherwise a
one-row placeholder frame ("No Pretor Group items found or linked.",
incomplete, dashes) is handed instead. -/
def generate_pdf_report_rows (progress_data : List FlatProgressRow) : List PdfTableRow :=
  let pretor_data := progress_data.filter (fun r => r.type == "Pretor")
  if pretor_data.isEmpty then
    [{ item_description := "No Pretor Group items found or linked.",
       is_complete := false, date_completed := "-", completed_by := "-" }]
  else
    pretor_data.map prep_row

/-- A rectangle drawn by fpdf: position of its top-left corner, width,
height (all in mm) and the text placed in it. -/
structure Cell where
  x : Int
  y : Int
  w : Int
  h : Int
  txt : String
  deriving DecidableEq, Repr

/-- Drawing behaviour of fpdf's `multi_cell(w, h, txt)`: one cell of width
`w` and height `h` per wrapped line, each line advancing the y cursor by
`h`. -/
def multi_cell_lines (x y w h : Int) : List String → List Cell
  | [] => []
  | line :: rest => { x := x, y := y, w := w, h := h, txt := line } :: multi_cell_lines x (y + h) w h rest

/-- One iteration of the row loop of `PDF.chapter_body` (src/app.py:138-167),
parametric in `wrap`, fpdf's splitting of a string into wrapped lines at the
Item column width (100 mm) in the current font.  The dry-run
`multi_cell(..., dry_run=True, output='LINES')` at src/app.py:151 and the
drawing `multi_cell` at src/app.py:157 receive the same width, font and
(sanitized) text, hence the same `wrap`.  After the item cell is drawn the
cursor returns to the saved `y` at `x + 100`, and the three fixed-width
cells (status, date, completed-by) are drawn there with
`cell_height = len(item_lines) * line_height`; `cell` never wraps its
text. -/
def chapter_body_row (wrap : String → List String) (x y : Int) (row : PdfTableRow) :
    List Cell :=
  let item := ascii_ignore row.item_description
  let status := if row.is_complete then "Complete" else "Pending"
  let line_height : Int := 6
  let item_lines := wrap item
  let cell_height : Int := (item_lines.length : Int) * line_height
  multi_cell_lines x y 100 line_height item_lines
    ++ [{ x := x + 100, y := y, w := 30, h := cell_height, txt := status },
        { x := x + 130, y := y, w := 30, h := cell_height, txt := row.date_completed },
        { x := x + 160, y := y, w := 30, h := cell_height, txt := row.completed_by }]

/-! Helper lemmas. -/

/-- Mapping a constant over a list gives a replicate of its length. -/
theorem list_map_const {A B : Type} (b : B) (l : List A) :
    l.map (fun _ => b) = List.replicate l.length b := by
  induction l with
  | nil => rfl
  | cons a t ih => simp [ih, List.replicate_succ]

/-- An issued update never changes a row's `progress_id` (the payload has no
id column). -/
theorem apply_update_progress_id (r : FlatProgressRow) (u : Nat × UpdatePayload) :
    (apply_update r u).progress_id = r.progress_id := by
  unfold apply_update
  split <;> rfl

/-- A whole batch of issued updates never changes a row's `progress_id`. -/
theorem foldl_apply_update_progress_id (us : List (Nat × UpdatePayload)) (r : FlatProgressRow) :
    (us.foldl apply_update r).progress_id = r.progress_id := by
  induction us generalizing r with
  | nil => rfl
  | cons a t ih => rw [List.foldl_cons, ih, apply_update_progress_id]

/-- Applying updates preserves the frame's index labels. -/
theorem apply_result_labels (orig : List (Nat × FlatProgressRow))
    (us : List (Nat × UpdatePayload)) :
    (apply_result orig us).map Prod.fst = orig.map Prod.fst := by
  simp [apply_result, List.map_map, Function.comp]

/-! Claim C6 — instantiation creates exactly one record per matching
template item. -/

/-- C6: `copy_checklists` produces, in catalog order, exactly one progress
row per template item whose `scheme_type` equals the scheme's abbreviation —
its `master_item_id`s are exactly the ids of `items_to_copy` (so the mapping
is 1:1 and, for a duplicate-free catalog, duplicate-free), every created row
starts with `is_complete = false` and is bound to the new scheme id, and a
catalog with zero matching items yields an empty row set with no batch
insert, no error reported, and the caller informed by a warning. -/
theorem C6_instantiation_exact (sid : Nat) (catalog : List MasterChecklistItem)
    (abbr : String) (hnd : (catalog.map (fun t => t.id)).Nodup) :
    ((copy_checklists sid catalog abbr).map (fun r => r.master_item_id)
        = (items_to_copy catalog abbr).map (fun t => t.id))
    ∧ ((copy_checklists sid catalog abbr).map (fun r => r.is_complete)
        = List.replicate (items_to_copy catalog abbr).length false)
    ∧ ((copy_checklists sid catalog abbr).map (fun r => r.scheme_id)
        = List.replicate (items_to_copy catalog abbr).length sid)
    ∧ ((copy_checklists sid catalog abbr).map (fun r => r.master_item_id)).Nodup
    ∧ (items_to_copy catalog abbr = [] →
        copy_checklists sid catalog abbr = []
        ∧ (new_scheme_submit catalog abbr sid true true).progress_persisted = []
        ∧ (new_scheme_submit catalog abbr sid true true).error_reported = false) := by
  have h1 : (copy_checklists sid catalog abbr).map (fun r => r.master_item_id)
      = (items_to_copy catalog abbr).map (fun t => t.id) := by
    rw [copy_checklists, List.map_map]
    rfl
  refine ⟨h1, ?_, ?_, ?_, ?_⟩
  · rw [copy_checklists, List.map_map]
    exact list_map_const false (items_to_copy catalog abbr)
  · rw [copy_checklists, List.map_map]
    exact list_map_const sid (items_to_copy catalog abbr)
  · rw [h1]
    have hsub : List.Sublist ((items_to_copy catalog abbr).map (fun t => t.id))
        (catalog.map (fun t => t.id)) :=
      List.Sublist.map _ (List.filter_sublist catalog)
    exact List.Nodup.sublist hsub hnd
  · intro hempty
    have hcopy : copy_checklists sid catalog abbr = [] := by
      rw [copy_checklists, hempty]
      rfl
    refine ⟨hcopy, ?_, ?_⟩ <;> simp [new_scheme_submit, hcopy]

/-- Concrete catalog for the C6 witness: two "BC" items and one "HOA" item,
the spec's concrete scenario. -/
def c6_catalog : List MasterChecklistItem :=
  [{ id := 1, item_description := "Obtain audited financials", type := "PMA", scheme_type := "BC" },
   { id := 2, item_description := "Load building codes", type := "Pretor", scheme_type := "BC" },
   { id := 3, item_description := "HOA registration pack", type := "PMA", scheme_type := "HOA" }]

/-- Witness for C6 at the concrete catalog: creating a "BC" scheme copies
exactly the two "BC" items, with distinct template references and all rows
incomplete. -/
theorem C6_instantiation_exact_witness :
    ((copy_checklists 3 c6_catalog "BC").map (fun r => r.master_item_id)
        = (items_to_copy c6_catalog "BC").map (fun t => t.id))
    ∧ ((copy_checklists 3 c6_catalog "BC").map (fun r => r.master_item_id)).Nodup
    ∧ ((copy_checklists 3 c6_catalog "BC").map (fun r => r.is_complete)
        = List.replicate (items_to_copy c6_catalog "BC").length false) :=
  ⟨(C6_instantiation_exact 3 c6_catalog "BC" (by decide)).1,
   (C6_instantiation_exact 3 c6_catalog "BC" (by decide)).2.2.2.1,
   (C6_instantiation_exact 3 c6_catalog "BC" (by decide)).2.1⟩

/-! Claim C10 — scheme creation and checklist instantiation are not atomic. -/

/-- C10: when the scheme insert succeeds and the subsequent bulk insert of
progress rows fails, the scheme row remains persisted with zero progress
rows, the failure is reported to the caller, and no compensating
`delete_scheme` is ever attempted. -/
theorem C10_no_rollback (catalog : List MasterChecklistItem) (abbr : String) (sid : Nat)
    (h : copy_checklists sid catalog abbr ≠ []) :
    (new_scheme_submit catalog abbr sid true false).scheme_persisted = true
    ∧ (new_scheme_submit catalog abbr sid true false).progress_persisted = []
    ∧ (new_scheme_submit catalog abbr sid true false).error_reported = true
    ∧ StoreOp.delete_scheme sid ∉ (new_scheme_submit catalog abbr sid true false).trace := by
  have hne : (copy_checklists sid catalog abbr).isEmpty = false := by
    cases hc : copy_checklists sid catalog abbr with
    | nil => exact absurd hc h
    | cons a t => rfl
  refine ⟨?_, ?_, ?_, ?_⟩ <;> simp [new_scheme_submit, hne]

/-- Witness for C10 at a concrete catalog with one matching item. -/
theorem C10_no_rollback_witness :
    (new_scheme_submit c6_catalog "HOA" 5 true false).scheme_persisted = true
    ∧ (new_scheme_submit c6_catalog "HOA" 5 true false).progress_persisted = []
    ∧ (new_scheme_submit c6_catalog "HOA" 5 true false).error_reported = true
    ∧ StoreOp.delete_scheme 5 ∉ (new_scheme_submit c6_catalog "HOA" 5 true false).trace :=
  C10_no_rollback c6_catalog "HOA" 5 (by decide)

/-! Claim C7 — the report includes exactly the Pretor records, with a
placeholder row when none exist. -/

/-- C7: when at least one record has category "Pretor", the rows handed to
`chapter_body` are exactly the prepared images of the records whose
`type` is "Pretor" (every such record contributes, and nothing else does);
when no record has category "Pretor", the report body is the single
placeholder row "No Pretor Group items found or linked.". -/
theorem C7_report_filter (progress_data : List FlatProgressRow) :
    ((∃ r ∈ progress_data, r.type = "Pretor") →
      ∀ b : PdfTableRow, b ∈ generate_pdf_report_rows progress_data ↔
        ∃ r ∈ progress_data, r.type = "Pretor" ∧ prep_row r = b)
    ∧ ((∀ r ∈ progress_data, r.type ≠ "Pretor") →
      generate_pdf_report_rows progress_data
        = [{ item_description := "No Pretor Group items found or linked.",
             is_complete := false, date_completed := "-", completed_by := "-" }]) := by
  constructor
  · rintro ⟨r, hr, ht⟩ b
    have hmem : r ∈ progress_data.filter (fun s => s.type == "Pretor") :=
      List.mem_filter.mpr ⟨hr, by simp [ht]⟩
    have hne : (progress_data.filter (fun s => s.type == "Pretor")).isEmpty = false := by
      cases hf : progress_data.filter (fun s => s.type == "Pretor") with
      | nil => rw [hf] at hmem; exact absurd hmem (List.not_mem_nil r)
      | cons a t => rfl
    rw [generate_pdf_report_rows]
    simp only [hne, Bool.false_eq_true, if_false, List.mem_map, List.mem_filter,
      beq_iff_eq]
    constructor
    · rintro ⟨a, ⟨ha, hta⟩, hpa⟩
      exact ⟨a, ha, hta, hpa⟩
    · rintro ⟨a, ha, hta, hpa⟩
      exact ⟨a, ⟨ha, hta⟩, hpa⟩
  · intro hall
    have hnil : progress_data.filter (fun s => s.type == "Pretor") = [] := by
      rw [List.filter_eq_nil_iff]
      intro a ha
      simpa using hall a ha
    rw [generate_pdf_report_rows]
    simp [hnil]

/-- Concrete records for the C7 witness: the spec's example, one "Pretor"
record with description "A" and one "PMA" record with description "B". -/
def c7_progress : List FlatProgressRow :=
  [{ progress_id := 1, item_description := "A", scheme_type := "BC", type := "Pretor",
     is_complete := false, date_completed := none, completed_by := none, notes := none },
   { progress_id := 2, item_description := "B", scheme_type := "BC", type := "PMA",
     is_complete := false, date_completed := none, completed_by := none, notes := none }]

/-- A record set with no "Pretor" rows, for the placeholder branch of the
C7 witness. -/
def c7_progress_pma : List FlatProgressRow :=
  [{ progress_id := 2, item_description := "B", scheme_type := "BC", type := "PMA",
     is_complete := false, date_completed := none, completed_by := none, notes := none }]

/-- Witness for C7: the prepared "A" row is included for the mixed record
set, and the all-PMA record set renders the single placeholder row. -/
theorem C7_report_filter_witness :
    ({ item_description := "A", is_complete := false, date_completed := "-",
       completed_by := "-" } : PdfTableRow) ∈ generate_pdf_report_rows c7_progress
    ∧ generate_pdf_report_rows c7_progress_pma
        = [{ item_description := "No Pretor Group items found or linked.",
             is_complete := false, date_completed := "-", completed_by := "-" }] :=
  ⟨((C7_report_filter c7_progress).1
      ⟨{ progress_id := 1, item_description := "A", scheme_type := "BC", type := "Pretor",
         is_complete := false, date_completed := none, completed_by := none, notes := none },
        by decide, rfl⟩ _).mpr
      ⟨{ progress_id := 1, item_description := "A", scheme_type := "BC", type := "Pretor",
         is_complete := false, date_completed := none, completed_by := none, notes := none },
        by decide, rfl, rfl⟩,
   (C7_report_filter c7_progress_pma).2 (by decide)⟩

/-! Claim C8 — all four cells of a report row share the height
N × line height, where N is the wrapped line count of the sanitized
description. -/

/-- The drawn lines of a `multi_cell` are exactly the wrapped lines. -/
theorem multi_cell_lines_map_txt (x y w h : Int) (ls : List String) :
    (multi_cell_lines x y w h ls).map Cell.txt = ls := by
  induction ls generalizing y with
  | nil => rfl
  | cons a t ih => simp [multi_cell_lines, ih]

/-- Every drawn line of a `multi_cell` has the fixed line height. -/
theorem multi_cell_lines_map_h (x y w h : Int) (ls : List String) :
    (multi_cell_lines x y w h ls).map Cell.h = List.replicate ls.length h := by
  induction ls generalizing y with
  | nil => rfl
  | cons a t ih => simp [multi_cell_lines, ih, List.replicate_succ]

/-- A `multi_cell` draws one cell per wrapped line. -/
theorem multi_cell_lines_length (x y w h : Int) (ls : List String) :
    (multi_cell_lines x y w h ls).length = ls.length := by
  induction ls generalizing y with
  | nil => rfl
  | cons a t ih => simp [multi_cell_lines, ih]

/-- C8: in one rendered report row, with N the number of lines the sanitized
description wraps to at the 100 mm Item column width: the drawn item lines
are exactly those wrapped lines (sanitization happens before measurement and
drawing alike), their total drawn height is N × 6; and the three fixed-width
cells (status, date, completed-by) are single non-wrapping cells, each of
height exactly N × 6, all top-aligned at the row's starting y — whatever
their own text is. -/
theorem C8_row_heights (wrap : String → List String) (x y : Int) (row : PdfTableRow) :
    (((chapter_body_row wrap x y row).take
        (wrap (ascii_ignore row.item_description)).length).map Cell.txt
      = wrap (ascii_ignore row.item_description))
    ∧ ((((chapter_body_row wrap x y row).take
        (wrap (ascii_ignore row.item_description)).length).map Cell.h).sum
      = ((wrap (ascii_ignore row.item_description)).length : Int) * 6)
    ∧ (((chapter_body_row wrap x y row).drop
        (wrap (ascii_ignore row.item_description)).length).map Cell.h
      = [((wrap (ascii_ignore row.item_description)).length : Int) * 6,
         ((wrap (ascii_ignore row.item_description)).length : Int) * 6,
         ((wrap (ascii_ignore row.item_description)).length : Int) * 6])
    ∧ (((chapter_body_row wrap x y row).drop
        (wrap (ascii_ignore row.item_description)).length).map Cell.y
      = [y, y, y]) := by
  refine ⟨?_, ?_, ?_, ?_⟩
  · show (((multi_cell_lines x y 100 6 (wrap (ascii_ignore row.item_description)) ++ _).take
        (wrap (ascii_ignore row.item_description)).length).map Cell.txt = _)
    conv_lhs =>
      rw [← multi_cell_lines_length x y 100 6 (wrap (ascii_ignore row.item_description)),
        List.take_left]
    exact multi_cell_lines_map_txt x y 100 6 (wrap (ascii_ignore row.item_description))
  · show ((((multi_cell_lines x y 100 6 (wrap (ascii_ignore row.item_description)) ++ _).take
        (wrap (ascii_ignore row.item_description)).length).map Cell.h).sum = _)
    conv_lhs =>
      rw [← multi_cell_lines_length x y 100 6 (wrap (ascii_ignore row.item_description)),
        List.take_left]
    rw [multi_cell_lines_map_h, List.sum_replicate, nsmul_eq_mul]
  · show (((multi_cell_lines x y 100 6 (wrap (ascii_ignore row.item_description)) ++ _).drop
        (wrap (ascii_ignore row.item_description)).length).map Cell.h = _)
    conv_lhs =>
      rw [← multi_cell_lines_length x y 100 6 (wrap (ascii_ignore row.item_description)),
        List.drop_left]
    simp [multi_cell_lines_length]
  · show (((multi_cell_lines x y 100 6 (wrap (ascii_ignore row.item_description)) ++ _).drop
        (wrap (ascii_ignore row.item_description)).length).map Cell.y = _)
    conv_lhs =>
      rw [← multi_cell_lines_length x y 100 6 (wrap (ascii_ignore row.item_description)),
        List.drop_left]
    rfl

/-! Claim C3 — the code writes every row on save, including unchanged
ones. -/

/-- A one-row grid: record id 7, stored complete with a date, an operator
and a note, at index label 0. -/
def c3_orig : List (Nat × FlatProgressRow) :=
  [(0, { progress_id := 7, item_description := "Obtain insurance schedule",
         scheme_type := "BC", type := "PMA", is_complete := true,
         date_completed := some "2024-01-15", completed_by := some "Me",
         notes := some "checked" })]

/-- C3: saving an edited view IDENTICAL to the stored records still issues
one update (re-writing the very same values), not zero.  With
`keep_shape=True` the result of `DataFrame.compare` keeps every row, so
`changes.empty` is false for any non-empty grid and the loop updates every
label; the `st.info("No changes detected to save.")` branch is unreachable
for a non-empty grid, contradicting both it and the spec's "records with no
detected change are not written". -/
theorem C3_unchanged_row_still_written :
    reconcile c3_orig c3_orig
      = Except.ok [(7, { is_complete := true, date_completed := some "2024-01-15",
                         completed_by := some "Me", notes := some "checked" })]
    ∧ reconcile c3_orig c3_orig ≠ Except.ok [] := by
  constructor
  · rfl
  · intro hc
    rw [show reconcile c3_orig c3_orig
        = Except.ok [(7, { is_complete := true, date_completed := some "2024-01-15",
                           completed_by := some "Me", notes := some "checked" })] from rfl] at hc
    exact absurd (Except.ok.inj hc) (by decide)

/-! Claim C5 — Invariant I1 is applied to the payload, not before the
diff. -/

/-- Stored row for the C5 counterexample: incomplete, all optional fields
absent. -/
def c5_stored : FlatProgressRow :=
  { progress_id := 7, item_description := "Obtain insurance schedule",
    scheme_type := "BC", type := "PMA", is_complete := false,
    date_completed := none, completed_by := none, notes := none }

/-- Edited row for the C5 counterexample: still incomplete, but with a
completion date supplied.  Its I1-normalized values equal the stored
values. -/
def c5_edited_row : FlatProgressRow :=
  { c5_stored with date_completed := some "2024-03-01" }

/-- The C5 one-row original grid. -/
def c5_orig : List (Nat × FlatProgressRow) := [(0, c5_stored)]

/-- The C5 one-row edited grid. -/
def c5_edited : List (Nat × FlatProgressRow) := [(0, c5_edited_row)]

/-- C5 counterexample: the edited row's NORMALIZED proposed values coincide
with the stored values (first conjunct), so under the claim ("treated as
absent before diffing") the record would be excluded and no write issued;
the code nonetheless issues a write for it (second and third conjuncts) —
normalization happens only in the payload, after the diff. -/
theorem C5_normalized_equal_row_still_written :
    (update_payload c5_edited_row
      = { is_complete := c5_stored.is_complete,
          date_completed := c5_stored.date_completed,
          completed_by := c5_stored.completed_by, notes := c5_stored.notes })
    ∧ reconcile c5_orig c5_edited = Except.ok [(7, update_payload c5_edited_row)]
    ∧ reconcile c5_orig c5_edited ≠ Except.ok [] := by
  refine ⟨rfl, rfl, ?_⟩
  intro hc
  rw [show reconcile c5_orig c5_edited = Except.ok [(7, update_payload c5_edited_row)]
      from rfl] at hc
  exact absurd (Except.ok.inj hc) (by decide)

/-- C5 (amended): every update the save path actually applies satisfies
Invariant I1 — whenever an issued payload carries completion flag false, its
completion date and completed-by are absent, whatever values the edited view
supplied. -/
theorem C5_applied_updates_satisfy_I1
    (orig edited : List (Nat × FlatProgressRow)) (u : List (Nat × UpdatePayload))
    (pid : Nat) (p : UpdatePayload)
    (h : reconcile orig edited = Except.ok u) (hmem : (pid, p) ∈ u)
    (hflag : p.is_complete = false) :
    p.date_completed = none ∧ p.completed_by = none := by
  unfold reconcile at h
  by_cases hl : orig.map Prod.fst = edited.map Prod.fst
  · rw [if_pos hl] at h
    rw [← Except.ok.inj h, List.mem_map] at hmem
    obtain ⟨q, _, hpq⟩ := hmem
    have hp : p = update_payload q.2.2 := by
      have hsnd := congrArg Prod.snd hpq
      simpa using hsnd.symm
    rw [hp] at hflag ⊢
    simp only [update_payload] at hflag
    simp [update_payload, hflag]
  · rw [if_neg hl] at h
    exact absurd h (by simp)

/-- The payload the save path issues for the C5 row: flag false, everything
else cleared. -/
def c5_payload : UpdatePayload :=
  { is_complete := false, date_completed := none, completed_by := none, notes := none }

/-- Witness for the amended C5 at the concrete one-row grids: the payload
issued for the incomplete row stores absent date and absent completed-by. -/
theorem C5_applied_updates_satisfy_I1_witness :
    c5_payload.date_completed = none ∧ c5_payload.completed_by = none :=
  C5_applied_updates_satisfy_I1 c5_orig c5_edited [(7, c5_payload)] 7 c5_payload
    rfl (by decide) rfl

/-! Claim C4 — reapplying the same edited view is NOT "zero further
updates"; it re-issues the same updates. -/

/-- Stored row for the C4 scenario: record id 7, incomplete, all optional
fields absent (the spec's concrete scenario). -/
def c4_stored : FlatProgressRow :=
  { progress_id := 7, item_description := "Obtain previous audited financials",
    scheme_type := "BC", type := "PMA", is_complete := false,
    date_completed := none, completed_by := none, notes := none }

/-- Edited row for the C4 scenario: completed on 2024-03-01 by the
bookkeeper with a note. -/
def c4_edited_row : FlatProgressRow :=
  { c4_stored with is_complete := true, date_completed := some "2024-03-01",
                   completed_by := some "Bookkeeper", notes := some "done" }

/-- The C4 one-row original grid. -/
def c4_orig : List (Nat × FlatProgressRow) := [(0, c4_stored)]

/-- The C4 one-row edited grid. -/
def c4_edited : List (Nat × FlatProgressRow) := [(0, c4_edited_row)]

/-- The updates the first save issues for the C4 scenario. -/
def c4_updates : List (Nat × UpdatePayload) :=
  [(7, { is_complete := true, date_completed := some "2024-03-01",
         completed_by := some "Bookkeeper", notes := some "done" })]

/-- C4 counterexample: after the first save's updates are applied, running
the save path again with the same edited view issues the SAME one update
again — not zero.  With `keep_shape=True` every row of a non-empty grid is
written on every save, so "zero further dirty records" fails. -/
theorem C4_second_pass_still_writes :
    reconcile c4_orig c4_edited = Except.ok c4_updates
    ∧ reconcile (apply_result c4_orig c4_updates) c4_edited = Except.ok c4_updates
    ∧ c4_updates ≠ [] := by
  refine ⟨rfl, rfl, ?_⟩
  decide

/-- C4 (amended): reconciliation is idempotent in EFFECT but not in update
count: reapplying the same edited view against the post-update state
re-issues exactly the same updates (same ids, same payloads) as the first
pass, so the store ends in the same state — but the number of further
updates equals the row count of the grid, not zero. -/
theorem C4_reapply_issues_same_updates
    (orig edited : List (Nat × FlatProgressRow)) (u : List (Nat × UpdatePayload))
    (h : reconcile orig edited = Except.ok u) :
    reconcile (apply_result orig u) edited = Except.ok u := by
  unfold reconcile at h ⊢
  by_cases hl : orig.map Prod.fst = edited.map Prod.fst
  · rw [if_pos hl] at h
    have hu := Except.ok.inj h
    rw [if_pos (by rw [apply_result_labels]; exact hl)]
    rw [← hu]
    congr 1
    unfold apply_result
    rw [List.zip_map_left, List.map_map]
    apply List.map_congr_left
    intro a _
    obtain ⟨⟨l1, r1⟩, l2, r2⟩ := a
    simp [Function.comp, Prod.map, foldl_apply_update_progress_id]
  · rw [if_neg hl] at h
    exact absurd h (by simp)

/-- Witness for the amended C4 at the concrete one-row grids. -/
theorem C4_reapply_issues_same_updates_witness :
    reconcile (apply_result c4_orig c4_updates) c4_edited = Except.ok c4_updates :=
  C4_reapply_issues_same_updates c4_orig c4_edited c4_updates rfl

/-! Claim C1 — rows are matched by position (shared index label), not by
stable record id. -/

/-- First stored row for the C1 scenario: record id 7. -/
def c1_stored_a : FlatProgressRow :=
  { progress_id := 7, item_description := "Collect levy roll", scheme_type := "BC",
    type := "PMA", is_complete := false, date_completed := none,
    completed_by := none, notes := none }

/-- Second stored row for the C1 scenario: record id 8. -/
def c1_stored_b : FlatProgressRow :=
  { progress_id := 8, item_description := "Load insurance policy", scheme_type := "BC",
    type := "Pretor", is_complete := false, date_completed := none,
    completed_by := none, notes := none }

/-- Edited values intended for record id 7 (the row carries its id in the
hidden `progress_id` column). -/
def c1_edit_a : FlatProgressRow :=
  { c1_stored_a with is_complete := true, date_completed := some "2024-03-01",
                     completed_by := some "Me" }

/-- Edited values intended for record id 8. -/
def c1_edit_b : FlatProgressRow :=
  { c1_stored_b with is_complete := true, date_completed := some "2024-04-02",
                     completed_by := some "Bookkeeper" }

/-- The C1 original grid: id 7 at label 0, id 8 at label 1. -/
def c1_orig : List (Nat × FlatProgressRow) := [(0, c1_stored_a), (1, c1_stored_b)]

/-- The C1 edited grid in the original display order. -/
def c1_edited_in_order : List (Nat × FlatProgressRow) := [(0, c1_edit_a), (1, c1_edit_b)]

/-- The C1 edited grid with its two rows reordered for display (labels
reassigned positionally, each row still carrying its own id and values, so
the same id-to-values pairs appear). -/
def c1_edited_reordered : List (Nat × FlatProgressRow) := [(0, c1_edit_b), (1, c1_edit_a)]

/-- Payload of the edit intended for id 7. -/
def c1_payload_a : UpdatePayload :=
  { is_complete := true, date_completed := some "2024-03-01",
    completed_by := some "Me", notes := none }

/-- Payload of the edit intended for id 8. -/
def c1_payload_b : UpdatePayload :=
  { is_complete := true, date_completed := some "2024-04-02",
    completed_by := some "Bookkeeper", notes := none }

/-- C1 counterexample: the edited grid and its reordering carry the same
id-to-values rows (third conjunct: one is a permutation of the other), yet
the save path applies different update sets — in the reordered run id 7
receives id 8's values and vice versa (first two conjuncts), and the two
update sets are not equal even up to order (fourth conjunct).  Matching is
by index label, i.e. by position; the rows' own ids are ignored. -/
theorem C1_reorder_changes_updates :
    reconcile c1_orig c1_edited_in_order
      = Except.ok [(7, c1_payload_a), (8, c1_payload_b)]
    ∧ reconcile c1_orig c1_edited_reordered
      = Except.ok [(7, c1_payload_b), (8, c1_payload_a)]
    ∧ (c1_edited_in_order.map Prod.snd).Perm (c1_edited_reordered.map Prod.snd)
    ∧ ¬ List.Perm [(7, c1_payload_a), (8, c1_payload_b)]
        [(7, c1_payload_b), (8, c1_payload_a)] := by
  refine ⟨rfl, rfl, ?_, ?_⟩ <;> decide

/-- C1 (amended): the update set is invariant when the original and edited
grids are reordered TOGETHER — if the two runs pair original and edited rows
the same way up to a permutation (their zipped row lists are permutations of
one another), the applied update lists are permutations of one another. -/
theorem C1_joint_reorder_permutes_updates
    (o1 e1 o2 e2 : List (Nat × FlatProgressRow))
    (u1 u2 : List (Nat × UpdatePayload))
    (hp : (o1.zip e1).Perm (o2.zip e2))
    (h1 : reconcile o1 e1 = Except.ok u1)
    (h2 : reconcile o2 e2 = Except.ok u2) :
    u1.Perm u2 := by
  unfold reconcile at h1 h2
  by_cases hl1 : o1.map Prod.fst = e1.map Prod.fst
  · rw [if_pos hl1] at h1
    by_cases hl2 : o2.map Prod.fst = e2.map Prod.fst
    · rw [if_pos hl2] at h2
      rw [← Except.ok.inj h1, ← Except.ok.inj h2]
      exact hp.map _
    · rw [if_neg hl2] at h2
      exact absurd h2 (by simp)
  · rw [if_neg hl1] at h1
    exact absurd h1 (by simp)

/-- The C1 original grid reordered together with its edited grid (labels
carried along with the rows). -/
def c1_orig_swapped : List (Nat × FlatProgressRow) := [(1, c1_stored_b), (0, c1_stored_a)]

/-- The C1 edited grid reordered the same way, labels carried. -/
def c1_edited_swapped : List (Nat × FlatProgressRow) := [(1, c1_edit_b), (0, c1_edit_a)]

/-- Witness for the amended C1: reordering both grids together yields the
same updates up to order. -/
theorem C1_joint_reorder_permutes_updates_witness :
    List.Perm [(7, c1_payload_a), (8, c1_payload_b)]
      [(8, c1_payload_b), (7, c1_payload_a)] :=
  C1_joint_reorder_permutes_updates c1_orig c1_edited_in_order
    c1_orig_swapped c1_edited_swapped
    [(7, c1_payload_a), (8, c1_payload_b)] [(8, c1_payload_b), (7, c1_payload_a)]
    (by decide) rfl rfl

/-! Claim C9 — an edited view citing an unknown record id does not fail; it
is applied positionally. -/

/-- The C9 one-row original grid: record id 7 at label 0. -/
def c9_orig : List (Nat × FlatProgressRow) := [(0, c1_stored_a)]

/-- The C9 edited row: it references record id 99, which is not present in
the original set. -/
def c9_ghost : FlatProgressRow :=
  { progress_id := 99, item_description := "Collect levy roll", scheme_type := "BC",
    type := "PMA", is_complete := true, date_completed := some "2024-05-01",
    completed_by := some "Me", notes := none }

/-- The C9 one-row edited grid. -/
def c9_edited : List (Nat × FlatProgressRow) := [(0, c9_ghost)]

/-- The payload built from the C9 ghost row. -/
def c9_payload : UpdatePayload :=
  { is_complete := true, date_completed := some "2024-05-01",
    completed_by := some "Me", notes := none }

/-- C9 counterexample: the edited view references id 99 (first conjunct),
an id absent from the original set (second conjunct), yet the save path does
not fail and applies one update — silently writing the ghost row's values to
record id 7, the original record sharing its index label (third conjunct).
No validation of the edited view's ids exists: they are never read. -/
theorem C9_unknown_id_silently_applied :
    (99 ∈ c9_edited.map (fun p => p.2.progress_id))
    ∧ (99 ∉ c9_orig.map (fun p => p.2.progress_id))
    ∧ reconcile c9_orig c9_edited = Except.ok [(7, c9_payload)] := by
  refine ⟨by decide, by decide, rfl⟩

/-- C9 (amended): the only malformed edited view the save path rejects is
one whose index labels differ from the original's (in content or order) —
pandas raises its ValueError before any update is issued, so zero updates
are applied in that case. -/
theorem C9_label_mismatch_fails_before_updates
    (orig edited : List (Nat × FlatProgressRow))
    (h : orig.map Prod.fst ≠ edited.map Prod.fst) :
    reconcile orig edited
      = Except.error "Can only compare identically-labeled DataFrame objects" := by
  unfold reconcile
  rw [if_neg h]

/-- Witness for the amended C9: a one-row grid against an empty edited frame
fails with the pandas error and no updates. -/
theorem C9_label_mismatch_fails_before_updates_witness :
    reconcile c9_orig []
      = Except.error "Can only compare identically-labeled DataFrame objects" :=
  C9_label_mismatch_fails_before_updates c9_orig [] (by decide)

/-! Claim C2 — the responsible-party category is not snapshotted at
creation; it is recomputed from the catalog at every read. -/

/-- A persisted progress record for the C2 scenario, created from template
item 5; note it stores no category. -/
def c2_record : ProgressTrackerRow :=
  { id := 41, scheme_id := 10, master_item_id := 5, is_complete := false,
    date_completed := none, completed_by := none, notes := none }

/-- The catalog at the time the C2 record was created: item 5 is a "Pretor"
item. -/
def c2_catalog_before : List MasterChecklistItem :=
  [{ id := 5, item_description := "Handover audit file", type := "Pretor",
     scheme_type := "BC" }]

/-- The catalog after a later edit: item 5 reclassified as a "PMA" item. -/
def c2_catalog_after : List MasterChecklistItem :=
  [{ id := 5, item_description := "Handover audit file", type := "PMA",
     scheme_type := "BC" }]

/-- C2 counterexample: for the SAME stored record, the report's inclusion
decision follows the catalog's current category — under the original catalog
the record renders in the report, after the catalog edit the report shows
the no-items placeholder instead (first two conjuncts); and creation itself
stores no category at all: instantiation over the two catalogs produces
identical rows (third conjunct).  So the inclusion decision for an existing
record IS changed by catalog edits made after creation. -/
theorem C2_report_follows_catalog_edits :
    generate_pdf_report_rows (flatten_progress_row c2_catalog_before c2_record).toList
      = [{ item_description := "Handover audit file", is_complete := false,
           date_completed := "-", completed_by := "-" }]
    ∧ generate_pdf_report_rows (flatten_progress_row c2_catalog_after c2_record).toList
      = [{ item_description := "No Pretor Group items found or linked.",
           is_complete := false, date_completed := "-", completed_by := "-" }]
    ∧ copy_checklists 10 c2_catalog_before "BC" = copy_checklists 10 c2_catalog_after "BC" := by
  refine ⟨rfl, rfl, rfl⟩

/-- Instantiation reads only the id and scheme-type of each catalog item:
two catalogs agreeing on those projections — however their categories
differ — yield identical progress rows. -/
theorem copy_checklists_ignores_category (sid : Nat) (abbr : String) :
    ∀ (cat1 cat2 : List MasterChecklistItem),
      cat1.map (fun t => (t.id, t.scheme_type)) = cat2.map (fun t => (t.id, t.scheme_type)) →
      copy_checklists sid cat1 abbr = copy_checklists sid cat2 abbr := by
  intro cat1
  induction cat1 with
  | nil =>
    intro cat2 h
    cases cat2 with
    | nil => rfl
    | cons b t2 => simp at h
  | cons a t ih =>
    intro cat2 h
    cases cat2 with
    | nil => simp at h
    | cons b t2 =>
      simp only [List.map_cons, List.cons.injEq] at h
      obtain ⟨hhead, htail⟩ := h
      have hid : a.id = b.id := congrArg Prod.fst hhead
      have hst : a.scheme_type = b.scheme_type := congrArg Prod.snd hhead
      have htl := ih t2 htail
      unfold copy_checklists items_to_copy at htl ⊢
      simp only [List.filter_cons]
      rw [hst]
      split
      · rw [List.map_cons, List.map_cons, hid, htl]
      · exact htl

/-- C2 (amended): a progress record's reportable category is a LIVE join
value, not a creation-time snapshot — the flattened row's `type` equals the
current catalog's category for the record's template item, whatever catalog
state is current; and creation copies no category forward (instantiation is
unchanged under any catalog edit that keeps ids and scheme-types fixed). -/
theorem C2_category_resolved_at_read_time
    (catalog cat1 cat2 : List MasterChecklistItem) (p : ProgressTrackerRow)
    (m : MasterChecklistItem) (sid : Nat) (abbr : String)
    (hfind : catalog.find? (fun t => t.id == p.master_item_id) = some m)
    (hproj : cat1.map (fun t => (t.id, t.scheme_type))
      = cat2.map (fun t => (t.id, t.scheme_type))) :
    (flatten_progress_row catalog p).map (fun r => r.type) = some m.type
    ∧ copy_checklists sid cat1 abbr = copy_checklists sid cat2 abbr := by
  constructor
  · unfold flatten_progress_row
    rw [hfind]
    rfl
  · exact copy_checklists_ignores_category sid abbr cat1 cat2 hproj

/-- Witness for the amended C2 at the concrete record and catalogs. -/
theorem C2_category_resolved_at_read_time_witness :
    (flatten_progress_row c2_catalog_before c2_record).map (fun r => r.type)
      = some "Pretor"
    ∧ copy_checklists 10 c2_catalog_before "BC" = copy_checklists 10 c2_catalog_after "BC" :=
  C2_category_resolved_at_read_time c2_catalog_before c2_catalog_before c2_catalog_after
    c2_record
    { id := 5, item_description := "Handover audit file", type := "Pretor",
      scheme_type := "BC" }
    10 "BC" rfl rfl
